import Mathlib

/-!
Verification of the Electric-Demand-Forecasting-System forecasting core.

Shallow embedding of the pattern-based demand predictors
(`backend/ml/predict.py`, `backend/ml/models/advanced_predictor.py`,
`backend/app/routes/forecast.py`) and of the alert logic
(`backend/app/routes/alerts.py`).  Demands, temperatures and multipliers
are modelled as exact rationals; the Python builtin `round(x, n)` (round
half to even) is modelled exactly on ℚ.  The persisted linear-regression model
and feature scaler are opaque external artifacts, so the value the loaded
model produces for a feature vector is passed in as an `Option ℚ`
parameter (`none` models "no model loaded, or the model raised").
Impure presentation fields (generated ids, wall-clock timestamps,
formatted message strings) are passed in as parameters or omitted where
the routes create them from `datetime.now()`.
-/

namespace ElecDemand

/-- The Python builtin `round` to an integer: round half to even on the
exact value. -/
def pyRound (x : ℚ) : ℤ :=
  let f := ⌊x⌋
  let r := x - f
  if r < 1/2 then f
  else if 1/2 < r then f + 1
  else if f % 2 = 0 then f else f + 1

/-- The Python call `round(x, 1)`. -/
def round1 (x : ℚ) : ℚ := (pyRound (x * 10) : ℚ) / 10

/-- The Python call `round(x, 2)`. -/
def round2 (x : ℚ) : ℚ := (pyRound (x * 100) : ℚ) / 100

/-- The Python call `round(x, 3)`. -/
def round3 (x : ℚ) : ℚ := (pyRound (x * 1000) : ℚ) / 1000

/-- A Python dict with consecutive integer keys `0 .. xs.length - 1`,
as built by `{h: v for h in range(n)}`; lookup outside the keys is `none`. -/
def intDict (xs : List ℚ) : Int → Option ℚ :=
  fun k => if k < 0 then none else xs.get? k.toNat

/-- A Python dict with integer keys `1 .. xs.length`, as built by the
month-pattern tables. -/
def intDictFrom1 (xs : List ℚ) : Int → Option ℚ :=
  fun k => if k < 1 then none else xs.get? (k - 1).toNat

/-! ## `backend/ml/predict.py` — `DemandPredictor` -/

/-- The hourly multipliers of `DemandPredictor._set_default_patterns`. -/
def defaultHourTable : List ℚ :=
  [0.65, 0.58, 0.52, 0.48, 0.46, 0.50,
   0.62, 0.78, 0.92, 1.02, 1.08, 1.12,
   1.15, 1.12, 1.08, 1.04, 1.00, 1.08,
   1.18, 1.28, 1.22, 1.10, 0.92, 0.78]

/-- The day-of-week multipliers of `DemandPredictor._set_default_patterns`. -/
def defaultDayTable : List ℚ := [1.02, 1.04, 1.05, 1.04, 1.02, 0.88, 0.85]

/-- The pattern state of a `DemandPredictor`: base demand, the two
multiplier dicts, and the temperature coefficient.  (`DemandPredictor`
has no month table.) -/
structure Patterns where
  base_demand : ℚ
  hour_factors : Int → Option ℚ
  day_factors : Int → Option ℚ
  temp_coef : ℚ

/-- `DemandPredictor._set_default_patterns`. -/
def DemandPredictor.set_default_patterns : Patterns :=
  ⟨3500, intDict defaultHourTable, intDict defaultDayTable, 15⟩

/-- One row of the historical dataset, with the columns
`hour, day_of_week, temperature, demand` all present. -/
structure Record where
  hour : Int
  day_of_week : Int
  temperature : ℚ
  demand : ℚ

/-- Mean of a list of rationals, as taken of the demand column; only
applied to nonempty lists by the callers below. -/
def listMean (xs : List ℚ) : ℚ := xs.sum / xs.length

/-- The groupby-mean lookup of the predictors: the mean demand of the rows
whose `key` column equals `k`, or `none` when no row has that key. -/
def groupMean (rows : List Record) (key : Record → Int) (k : Int) : Option ℚ :=
  let g := (rows.filter (fun r => key r == k)).map Record.demand
  if g.isEmpty then none else some (listMean g)

/-- `DemandPredictor._load_data_patterns`, for a frame with all four
columns present.  `data = none` models a missing CSV file; an empty row
list models `len(df) == 0` — both fall back to
`_set_default_patterns`.  `corr` is the value of `np.corrcoef` on the
temperature and demand columns (`none` models a NaN correlation). -/
def DemandPredictor.load_data_patterns (data : Option (List Record)) (corr : Option ℚ) : Patterns :=
  match data with
  | none => DemandPredictor.set_default_patterns
  | some rows =>
    if rows.isEmpty then DemandPredictor.set_default_patterns
    else
      let base := listMean (rows.map Record.demand)
      let hourF : Int → Option ℚ := fun h =>
        if 0 ≤ h ∧ h < 24 then some (((groupMean rows Record.hour h).getD base) / base) else none
      let dayF : Int → Option ℚ := fun d =>
        if 0 ≤ d ∧ d < 7 then some (((groupMean rows Record.day_of_week d).getD base) / base) else none
      let coef := if rows.length > 10 then
          (match corr with
           | some c => 15 * (1 + c)
           | none => 15)
        else (15 : ℚ)
      ⟨base, hourF, dayF, coef⟩

/-- The pattern-based branch of `DemandPredictor.predict`
(lines 140-156): base × hour factor × day factor, additive temperature
term, humidity and holiday adjustments, floored at 100 MW and rounded.
`month` is accepted by `predict` but never used on this path. -/
def DemandPredictor.patternPredict (p : Patterns) (temperature : ℚ) (hour day_of_week : Int)
    (humidity : ℚ) (is_holiday : Bool) : ℚ :=
  let d0 := p.base_demand * ((p.hour_factors hour).getD 1) * ((p.day_factors day_of_week).getD 1)
  let d1 := d0 + (temperature - 25) * p.temp_coef
  let d2 := if humidity > 70 then d1 * 1.02 else d1
  let d3 := if is_holiday then d2 * 0.85 else d2
  round2 (max 100 d3)

/-- `DemandPredictor.predict`.  `mlResult` is the scalar the loaded model
returned for the (scaled) feature vector, `none` when no model is loaded
or the ML path raised.  A raw ML output `> 100` is returned directly
(rounded); otherwise the pattern branch runs. -/
def DemandPredictor.predict (p : Patterns) (mlResult : Option ℚ) (temperature : ℚ)
    (hour day_of_week month : Int) (humidity : ℚ) (is_holiday : Bool) : ℚ :=
  match mlResult with
  | some pred =>
    if pred > 100 then round2 pred
    else DemandPredictor.patternPredict p temperature hour day_of_week humidity is_holiday
  | none => DemandPredictor.patternPredict p temperature hour day_of_week humidity is_holiday

/-- The fixed diurnal temperature-offset table of `predict_next_24h`. -/
def tempVariation : List Int :=
  [-4, -5, -6, -6, -5, -4, -2, 0, 2, 4, 6, 8,
   9, 10, 10, 9, 8, 6, 4, 2, 0, -1, -2, -3]

/-- One entry of the 24-hour forecast list built by `predict_next_24h`. -/
structure HPoint where
  hour : ℕ
  temperature : ℚ
  predicted_demand : ℚ

/-- `DemandPredictor.predict_next_24h`.  `startHour`, `startWeekday` and
`startMonth` are `start_datetime.hour`, `.weekday()` and `.month`; `ml`
gives the output of the loaded model per feature vector (`none` per call
when the ML path is unavailable). -/
def DemandPredictor.predict_next_24h (ml : ℚ → ℕ → ℕ → ℕ → Option ℚ) (p : Patterns) (baseTemp : ℚ)
    (startHour startWeekday startMonth : ℕ) : List HPoint :=
  (List.range 24).map (fun i =>
    let hour := (startHour + i) % 24
    let day_of_week := (startWeekday + (startHour + i) / 24) % 7
    let month := startMonth
    let temp := baseTemp + ((tempVariation.getD hour 0 : ℤ) : ℚ)
    let demand := DemandPredictor.predict p (ml temp hour day_of_week month) temp hour day_of_week month 60 false
    ⟨hour, round1 temp, round2 demand⟩)

/-! ## `backend/ml/models/advanced_predictor.py` — `AdvancedDemandPredictor` -/

/-- `AdvancedDemandPredictor._get_hour_patterns`. -/
def advHourTable : List ℚ :=
  [0.65, 0.58, 0.52, 0.48, 0.46, 0.50,
   0.62, 0.78, 0.92, 1.02, 1.08, 1.12,
   1.15, 1.12, 1.08, 1.04, 1.00, 1.08,
   1.18, 1.28, 1.22, 1.10, 0.92, 0.78]

/-- `AdvancedDemandPredictor._get_day_patterns`. -/
def advDayTable : List ℚ := [1.02, 1.04, 1.05, 1.04, 1.02, 0.88, 0.85]

/-- `AdvancedDemandPredictor._get_month_patterns` (keys 1..12). -/
def advMonthTable : List ℚ :=
  [0.95, 0.97, 1.00, 1.02, 1.00, 0.98, 0.95, 0.96, 0.98, 1.02, 1.00, 0.98]

/-- The pattern part of `AdvancedDemandPredictor.predict` (lines 103-119):
base 3680 × hour × day × month multipliers, additive temperature and
humidity adjustments, optional population scaling (`if population:` is
false for `None` and for `0`). -/
def AdvancedDemandPredictor.patternDemand (temperature : ℚ) (hour day_of_week month : Int)
    (humidity : ℚ) (population : Option Int) : ℚ :=
  let base : ℚ := 3680
  let hour_factor := (intDict advHourTable hour).getD 1
  let day_factor := (intDict advDayTable day_of_week).getD 1
  let month_factor := (intDictFrom1 advMonthTable month).getD 1
  let temp_adjustment := (temperature - 25) * 15
  let humidity_adjustment := (humidity - 60) * (-2) / 10
  let demand := base * hour_factor * day_factor * month_factor + temp_adjustment + humidity_adjustment
  match population with
  | some pop => if pop = 0 then demand else demand * (pop : ℚ) / 23000000
  | none => demand

/-- The dict returned by `AdvancedDemandPredictor.predict`. -/
structure AdvResult where
  predicted_demand : ℚ
  confidence : ℚ
  lower_bound : ℚ
  upper_bound : ℚ
  ml_contribution : Bool

/-- `AdvancedDemandPredictor.predict`.  `mlResult` is the scalar produced
by the linear model of `self.models` on the scaled features: `none` models
"model or scaler not loaded, or the ML path raised".  When `use_ml` is
set and an ML value is available the blend `0.6*pattern + 0.4*ml` is
taken unconditionally. -/
def AdvancedDemandPredictor.predict (mlResult : Option ℚ) (temperature : ℚ)
    (hour day_of_week month : Int) (humidity : ℚ) (population : Option Int)
    (use_ml : Bool) : AdvResult :=
  let pat := AdvancedDemandPredictor.patternDemand temperature hour day_of_week month humidity population
  let mlUsed := if use_ml then mlResult else none
  let demand := match mlUsed with
    | some ml => 0.6 * pat + 0.4 * ml
    | none => pat
  let confidence := round3 (0.82 + 0.08 * (1 - |(hour : ℚ) - 14| / 14))
  let std_dev := demand * 0.08
  ⟨round2 (max 0 demand), confidence,
   round2 (max 0 (demand - 1.96 * std_dev)), round2 (demand + 1.96 * std_dev),
   mlUsed.isSome⟩

/-- One forecast point as consumed by
`AdvancedDemandPredictor.generate_alerts` (the `predicted_demand` and
`hour` entries of the prediction dict). -/
structure PredPoint where
  predicted_demand : ℚ
  hour : Int

/-- One alert dict built by `generate_alerts` (its `type`, `category` and
`hour` entries; the message and recommendation strings are fixed
templates of the category). -/
structure GAlert where
  type : String
  category : String
  hour : Int
deriving DecidableEq

/-- The alerts `generate_alerts` appends for a single forecast point:
`critical` above 4800 MW, else `warning` above 4200 MW; and additionally
a maintenance-window `info` alert when demand is below 2500 MW and the
hour lies in 2..5. -/
def AdvancedDemandPredictor.pointAlerts (p : PredPoint) : List GAlert :=
  (if p.predicted_demand > 4800 then [⟨"critical", "High Demand", p.hour⟩]
   else if p.predicted_demand > 4200 then [⟨"warning", "Peak Warning", p.hour⟩]
   else [])
  ++ (if p.predicted_demand < 2500 ∧ 2 ≤ p.hour ∧ p.hour ≤ 5
      then [⟨"info", "Maintenance Window", p.hour⟩] else [])

/-- `AdvancedDemandPredictor.generate_alerts` (lines 219-256). -/
def AdvancedDemandPredictor.generate_alerts (predictions : List PredPoint) : List GAlert :=
  predictions.flatMap AdvancedDemandPredictor.pointAlerts

/-! ## `backend/app/routes/forecast.py` — `DataDrivenPredictor` -/

/-- The pattern state of a `DataDrivenPredictor`. -/
structure DDPatterns where
  base_demand : ℚ
  hour_factors : Int → Option ℚ
  day_factors : Int → Option ℚ
  temp_coefficient : ℚ

/-- `DataDrivenPredictor._compute_patterns`, for a frame with all four
columns present; an empty row list models `self.data is None or
len(self.data) == 0` and falls back to base 3500 with every multiplier
1.0 and coefficient 15.  `corr` is the `np.corrcoef` value (`none` = NaN). -/
def DataDrivenPredictor.compute_patterns (rows : List Record) (corr : Option ℚ) : DDPatterns :=
  if rows.isEmpty then
    ⟨3500,
     fun h => if 0 ≤ h ∧ h < 24 then some 1 else none,
     fun d => if 0 ≤ d ∧ d < 7 then some 1 else none,
     15⟩
  else
    let base := listMean (rows.map Record.demand)
    let hourF : Int → Option ℚ := fun h =>
      if 0 ≤ h ∧ h < 24 then some (((groupMean rows Record.hour h).getD base) / base) else none
    let dayF : Int → Option ℚ := fun d =>
      if 0 ≤ d ∧ d < 7 then some (((groupMean rows Record.day_of_week d).getD base) / base) else none
    let coef := if rows.length > 10 then
        (match corr with
         | some c => 15 * (1 + c)
         | none => 15)
      else (15 : ℚ)
    ⟨base, hourF, dayF, coef⟩

/-- `DataDrivenPredictor.predict` (lines 105-110): pattern product plus
temperature term, floored at 0 (not 100) and rounded; `month` unused. -/
def DataDrivenPredictor.predict (p : DDPatterns) (temperature : ℚ) (hour day_of_week month : Int) : ℚ :=
  let d0 := p.base_demand * ((p.hour_factors hour).getD 1) * ((p.day_factors day_of_week).getD 1)
  let d1 := d0 + (temperature - 25) * p.temp_coefficient
  round2 (max 0 d1)

/-! ## `backend/app/routes/alerts.py` -/

/-- `AlertSeverity`. -/
inductive AlertSeverity
  | info
  | warning
  | critical
  | emergency
deriving DecidableEq

/-- `AlertType`. -/
inductive AlertType
  | peak_demand
  | low_demand
  | grid_instability
  | maintenance
  | weather
  | anomaly
  | forecast
deriving DecidableEq

/-- The `Alert` pydantic model of `alerts.py`. -/
structure Alert where
  id : String
  type : AlertType
  severity : AlertSeverity
  title : String
  message : String
  recommendation : String
  timestamp : String
  acknowledged : Bool
  acknowledged_by : Option String
  acknowledged_at : Option String
deriving DecidableEq

/-- `check_thresholds` (lines 103-139), reduced to the type and severity
of each produced alert: the id, timestamp, title, message and
recommendation of each produced alert are generated from `datetime.now()`
and fixed templates and carry no further branching. -/
def check_thresholds (demand_mw capacity_mw : ℚ) : List (AlertType × AlertSeverity) :=
  let utilization := demand_mw / capacity_mw * 100
  if utilization > 95 then [(AlertType.peak_demand, AlertSeverity.emergency)]
  else if utilization > 85 then [(AlertType.peak_demand, AlertSeverity.critical)]
  else if utilization > 75 then [(AlertType.peak_demand, AlertSeverity.warning)]
  else []

/-- The in-place mutation `acknowledge_alert` performs on the matched
alert: set `acknowledged`, `acknowledged_by` and `acknowledged_at`
(`now` is `datetime.now().isoformat()`). -/
def ackUpdate (a : Alert) (user now : String) : Alert :=
  { a with acknowledged := true, acknowledged_by := some user, acknowledged_at := some now }

/-- `acknowledge_alert` (lines 206-216) as a state transformer on
`alerts_db`: mutate the first alert whose id matches and stop, else
raise a 404 `HTTPException` leaving the store untouched. -/
def acknowledge_alert : List Alert → String → String → String → Except Nat (List Alert)
  | [], _, _, _ => Except.error 404
  | a :: rest, alert_id, user, now =>
    if a.id = alert_id then Except.ok (ackUpdate a user now :: rest)
    else
      match acknowledge_alert rest alert_id user now with
      | Except.ok rest2 => Except.ok (a :: rest2)
      | Except.error c => Except.error c

/-- `delete_alert` (lines 218-223) as a state transformer on `alerts_db`:
rebuild the store keeping every alert whose id differs; always succeeds. -/
def delete_alert (db : List Alert) (alert_id : String) : List Alert :=
  db.filter (fun a => a.id ≠ alert_id)

/-- An ordinary unacknowledged alert, used to instantiate the store
theorems. -/
def sampleAlert : Alert :=
  ⟨"ALT-20251216-0001", AlertType.peak_demand, AlertSeverity.warning,
   "t", "m", "r", "ts", false, none, none⟩

/-! ## Helper lemmas -/

theorem pyRound_ge_floor (x : ℚ) : ⌊x⌋ ≤ pyRound x := by
  unfold pyRound
  dsimp only
  split_ifs <;> omega

theorem intCast_le_round2 (n : ℤ) (x : ℚ) (h : (n : ℚ) ≤ x) : (n : ℚ) ≤ round2 x := by
  have h1 : (100 * n : ℤ) ≤ ⌊x * 100⌋ := by
    rw [Int.le_floor]
    push_cast
    linarith
  have h2 : (100 * n : ℤ) ≤ pyRound (x * 100) := le_trans h1 (pyRound_ge_floor _)
  rw [round2, le_div_iff₀ (by norm_num : (0:ℚ) < 100)]
  calc (n : ℚ) * 100 = ((100 * n : ℤ) : ℚ) := by push_cast; ring
    _ ≤ (pyRound (x * 100) : ℚ) := by exact_mod_cast h2

/-! ## Claim theorems -/

/-- C1 counterexample: with the default patterns and a loaded model whose raw
output is 200 MW (above the 100 MW plausibility floor),
`DemandPredictor.predict` returns the raw ML output 200 and not the blend
`0.6*pattern + 0.4*ml`; and `AdvancedDemandPredictor.predict` with a raw ML
output of -500 MW does not fall back to the pattern-only estimate. -/
theorem c1_blend_counterexample :
    DemandPredictor.predict DemandPredictor.set_default_patterns (some 200) 25 12 2 6 60 false ≠
      0.6 * DemandPredictor.patternPredict DemandPredictor.set_default_patterns 25 12 2 60 false + 0.4 * 200 ∧
    (AdvancedDemandPredictor.predict (some (-500)) 25 12 2 6 60 none true).predicted_demand ≠
      (AdvancedDemandPredictor.predict none 25 12 2 6 60 none true).predicted_demand := by
  constructor
  · have e1 : DemandPredictor.predict DemandPredictor.set_default_patterns (some 200) 25 12 2 6 60 false = round2 200 := rfl
    have e2 : DemandPredictor.patternPredict DemandPredictor.set_default_patterns 25 12 2 60 false =
        round2 (max 100 (3500 * 1.15 * 1.05 + (25 - 25) * 15)) := rfl
    rw [e1, e2]
    norm_num [round2, pyRound, max_def]
  · have e1 : (AdvancedDemandPredictor.predict (some (-500)) 25 12 2 6 60 none true).predicted_demand =
        round2 (max 0 (0.6 * (3680 * 1.15 * 1.05 * 0.98 + (25 - 25) * 15 + (60 - 60) * (-2) / 10) + 0.4 * (-500))) := rfl
    have e2 : (AdvancedDemandPredictor.predict none 25 12 2 6 60 none true).predicted_demand =
        round2 (max 0 (3680 * 1.15 * 1.05 * 0.98 + (25 - 25) * 15 + (60 - 60) * (-2) / 10)) := rfl
    rw [e1, e2]
    norm_num [round2, pyRound, max_def]

/-- C1 (amended): `DemandPredictor.predict` never blends: with a model loaded
it returns the raw ML output (rounded) whenever that output exceeds 100 MW,
and the pattern-only estimate otherwise (also when no model is loaded);
`AdvancedDemandPredictor.predict` blends `0.6*pattern + 0.4*ml`
unconditionally whenever an ML value is available, with no plausibility
floor on the ML output (only the final `max 0` clamp). -/
theorem c1_blend_amended :
    (∀ p ml t h d m hum hol, 100 < ml →
      DemandPredictor.predict p (some ml) t h d m hum hol = round2 ml) ∧
    (∀ p ml t h d m hum hol, ml ≤ 100 →
      DemandPredictor.predict p (some ml) t h d m hum hol = DemandPredictor.patternPredict p t h d hum hol) ∧
    (∀ p t h d m hum hol, DemandPredictor.predict p none t h d m hum hol = DemandPredictor.patternPredict p t h d hum hol) ∧
    (∀ ml t h d m hum pop,
      (AdvancedDemandPredictor.predict (some ml) t h d m hum pop true).predicted_demand =
        round2 (max 0 (0.6 * AdvancedDemandPredictor.patternDemand t h d m hum pop + 0.4 * ml)) ∧
      (AdvancedDemandPredictor.predict (some ml) t h d m hum pop true).ml_contribution = true) := by
  refine ⟨?_, ?_, ?_, ?_⟩
  · intro p ml t h d m hum hol hml
    show (if ml > 100 then round2 ml else DemandPredictor.patternPredict p t h d hum hol) = round2 ml
    rw [if_pos hml]
  · intro p ml t h d m hum hol hml
    show (if ml > 100 then round2 ml else DemandPredictor.patternPredict p t h d hum hol) =
      DemandPredictor.patternPredict p t h d hum hol
    rw [if_neg (not_lt_of_le hml)]
  · intro p t h d m hum hol
    rfl
  · intro ml t h d m hum pop
    exact ⟨rfl, rfl⟩

/-- C1 amended witness: the no-blend behavior at a concrete input. -/
theorem c1_blend_amended_witness :
    DemandPredictor.predict DemandPredictor.set_default_patterns (some 200) 25 12 2 6 60 false = round2 200 :=
  c1_blend_amended.1 DemandPredictor.set_default_patterns 200 25 12 2 6 60 false (by norm_num)

/-- C2: the core `DemandPredictor.predict` does not reject out-of-range
structural inputs: at hour 99 it silently substitutes the default
multiplier 1.0 and returns 3675 MW, and an out-of-range month 13 yields
the same result as month 6 because the month is never consulted. -/
theorem c2_out_of_range_computes :
    DemandPredictor.predict DemandPredictor.set_default_patterns none 25 99 2 6 60 false = 3675 ∧
    DemandPredictor.predict DemandPredictor.set_default_patterns none 25 12 2 13 60 false =
      DemandPredictor.predict DemandPredictor.set_default_patterns none 25 12 2 6 60 false := by
  constructor
  · have e : DemandPredictor.predict DemandPredictor.set_default_patterns none 25 99 2 6 60 false =
        round2 (max 100 (3500 * 1 * 1.05 + (25 - 25) * 15)) := rfl
    rw [e]
    norm_num [round2, pyRound, max_def]
  · rfl

/-- C3 counterexample: a forecast whose single point has demand 2400 MW at
hour 12 is below 1.1 times the period minimum (2400 MW), yet
`generate_alerts` emits no maintenance-opportunity alert for it: the code
gates the info alert on `demand < 2500 and 2 <= hour <= 5`, not on the
period minimum. -/
theorem c3_alerts_counterexample :
    (2400 : ℚ) < 1.1 * 2400 ∧ AdvancedDemandPredictor.generate_alerts [⟨2400, 12⟩] = [] := by
  constructor
  · norm_num
  · have e : AdvancedDemandPredictor.generate_alerts [⟨2400, 12⟩] = AdvancedDemandPredictor.pointAlerts ⟨2400, 12⟩ ++ [] := rfl
    rw [e]
    unfold AdvancedDemandPredictor.pointAlerts
    norm_num

/-- C3 (amended): `generate_alerts` emits a critical alert for each point
above 4800 MW, else a warning alert for each point above 4200 MW, and a
maintenance-window info alert for each point whose demand is below
2500 MW with hour between 2 and 5 inclusive — the info alert does not
depend on the period minimum; no other alerts are emitted, and the
alert list distributes over concatenation of forecast segments. -/
theorem c3_alerts_amended :
    (∀ p : PredPoint, 4800 < p.predicted_demand →
      AdvancedDemandPredictor.generate_alerts [p] = [⟨"critical", "High Demand", p.hour⟩]) ∧
    (∀ p : PredPoint, 4200 < p.predicted_demand → p.predicted_demand ≤ 4800 →
      AdvancedDemandPredictor.generate_alerts [p] = [⟨"warning", "Peak Warning", p.hour⟩]) ∧
    (∀ p : PredPoint, 2500 ≤ p.predicted_demand → p.predicted_demand ≤ 4200 →
      AdvancedDemandPredictor.generate_alerts [p] = []) ∧
    (∀ p : PredPoint, p.predicted_demand < 2500 → 2 ≤ p.hour → p.hour ≤ 5 →
      AdvancedDemandPredictor.generate_alerts [p] = [⟨"info", "Maintenance Window", p.hour⟩]) ∧
    (∀ p : PredPoint, p.predicted_demand < 2500 → ¬(2 ≤ p.hour ∧ p.hour ≤ 5) →
      AdvancedDemandPredictor.generate_alerts [p] = []) ∧
    (∀ l1 l2 : List PredPoint,
      AdvancedDemandPredictor.generate_alerts (l1 ++ l2) = AdvancedDemandPredictor.generate_alerts l1 ++ AdvancedDemandPredictor.generate_alerts l2) := by
  have single : ∀ p : PredPoint, AdvancedDemandPredictor.generate_alerts [p] = AdvancedDemandPredictor.pointAlerts p := by
    intro p
    show AdvancedDemandPredictor.pointAlerts p ++ [] = AdvancedDemandPredictor.pointAlerts p
    exact List.append_nil _
  refine ⟨?_, ?_, ?_, ?_, ?_, ?_⟩
  · intro p h1
    rw [single]
    unfold AdvancedDemandPredictor.pointAlerts
    rw [if_pos h1, if_neg (by push_neg; intro h2; linarith)]
    rfl
  · intro p h1 h2
    rw [single]
    unfold AdvancedDemandPredictor.pointAlerts
    rw [if_neg (not_lt_of_le h2), if_pos h1, if_neg (by push_neg; intro h3; linarith)]
    rfl
  · intro p h1 h2
    rw [single]
    unfold AdvancedDemandPredictor.pointAlerts
    rw [if_neg (by linarith), if_neg (not_lt_of_le h2),
      if_neg (by push_neg; intro h3; linarith)]
    rfl
  · intro p h1 h2 h3
    rw [single]
    unfold AdvancedDemandPredictor.pointAlerts
    rw [if_neg (by linarith), if_neg (by linarith), if_pos ⟨h1, h2, h3⟩]
    rfl
  · intro p h1 h2
    rw [single]
    unfold AdvancedDemandPredictor.pointAlerts
    rw [if_neg (by linarith), if_neg (by linarith),
      if_neg (by rintro ⟨_, hb, hc⟩; exact h2 ⟨hb, hc⟩)]
    rfl
  · intro l1 l2
    unfold AdvancedDemandPredictor.generate_alerts
    induction l1 with
    | nil => rfl
    | cons a l ih => simp only [List.cons_append, List.flatMap_cons, ih, List.append_assoc]

/-- C3 amended witness: a 5000 MW point at hour 19 yields exactly one
critical alert. -/
theorem c3_alerts_amended_witness :
    AdvancedDemandPredictor.generate_alerts [⟨5000, 19⟩] = [⟨"critical", "High Demand", 19⟩] :=
  c3_alerts_amended.1 ⟨5000, 19⟩ (by norm_num)

/-- C4 counterexample: `DataDrivenPredictor.predict` clamps at 0 MW, not at
the documented 100 MW floor: with the empty-data fallback patterns and
temperature -1000 °C it returns 0 MW. -/
theorem c4_floor_counterexample :
    DataDrivenPredictor.predict (DataDrivenPredictor.compute_patterns [] none) (-1000) 0 0 1 = 0 ∧
    DataDrivenPredictor.predict (DataDrivenPredictor.compute_patterns [] none) (-1000) 0 0 1 < 100 := by
  have e : DataDrivenPredictor.predict (DataDrivenPredictor.compute_patterns [] none) (-1000) 0 0 1 =
      round2 (max 0 (3500 * 1 * 1 + (-1000 - 25) * 15)) := rfl
  rw [e]
  norm_num [round2, pyRound, max_def]

/-- C4 (amended): `DemandPredictor.predict` always returns at least the
documented 100 MW floor (on both the ML and the pattern branch), while
`DataDrivenPredictor.predict` is only clamped to be non-negative. -/
theorem c4_floor_amended :
    (∀ p ml t h d m hum hol, (100 : ℚ) ≤ DemandPredictor.predict p ml t h d m hum hol) ∧
    (∀ p t h d m, (0 : ℚ) ≤ DataDrivenPredictor.predict p t h d m) := by
  have h100 : ∀ y : ℚ, (100 : ℚ) ≤ y → (100 : ℚ) ≤ round2 y := by
    intro y hy
    exact_mod_cast intCast_le_round2 100 y (by exact_mod_cast hy)
  constructor
  · intro p ml t h d m hum hol
    have hpat : (100 : ℚ) ≤ DemandPredictor.patternPredict p t h d hum hol := by
      unfold DemandPredictor.patternPredict
      exact h100 _ (le_max_left _ _)
    cases ml with
    | none => exact hpat
    | some v =>
      show (100 : ℚ) ≤ if v > 100 then round2 v else DemandPredictor.patternPredict p t h d hum hol
      split_ifs with hv
      · exact h100 v (le_of_lt hv)
      · exact hpat
  · intro p t h d m
    unfold DataDrivenPredictor.predict
    exact_mod_cast intCast_le_round2 0 _ (by exact_mod_cast le_max_left 0 _)

/-- C5: `check_thresholds` computes utilization as `demand/capacity*100` and
returns exactly one emergency alert above 95%, exactly one critical alert
in (85%, 95%], exactly one warning alert in (75%, 85%], and no alert at or
below 75%; in particular 8640 MW on the default 9000 MW capacity (96%)
yields exactly one emergency alert, 7200 MW (80%) exactly one warning
alert, and 4500 MW (50%) none. -/
theorem c5_thresholds :
    (∀ demand_mw capacity_mw : ℚ, 0 < capacity_mw →
      (95 < demand_mw / capacity_mw * 100 →
        check_thresholds demand_mw capacity_mw = [(AlertType.peak_demand, AlertSeverity.emergency)]) ∧
      (85 < demand_mw / capacity_mw * 100 → demand_mw / capacity_mw * 100 ≤ 95 →
        check_thresholds demand_mw capacity_mw = [(AlertType.peak_demand, AlertSeverity.critical)]) ∧
      (75 < demand_mw / capacity_mw * 100 → demand_mw / capacity_mw * 100 ≤ 85 →
        check_thresholds demand_mw capacity_mw = [(AlertType.peak_demand, AlertSeverity.warning)]) ∧
      (demand_mw / capacity_mw * 100 ≤ 75 →
        check_thresholds demand_mw capacity_mw = [])) ∧
    check_thresholds 8640 9000 = [(AlertType.peak_demand, AlertSeverity.emergency)] ∧
    check_thresholds 7200 9000 = [(AlertType.peak_demand, AlertSeverity.warning)] ∧
    check_thresholds 4500 9000 = [] := by
  have tiers : ∀ demand_mw capacity_mw : ℚ,
      (95 < demand_mw / capacity_mw * 100 →
        check_thresholds demand_mw capacity_mw = [(AlertType.peak_demand, AlertSeverity.emergency)]) ∧
      (85 < demand_mw / capacity_mw * 100 → demand_mw / capacity_mw * 100 ≤ 95 →
        check_thresholds demand_mw capacity_mw = [(AlertType.peak_demand, AlertSeverity.critical)]) ∧
      (75 < demand_mw / capacity_mw * 100 → demand_mw / capacity_mw * 100 ≤ 85 →
        check_thresholds demand_mw capacity_mw = [(AlertType.peak_demand, AlertSeverity.warning)]) ∧
      (demand_mw / capacity_mw * 100 ≤ 75 →
        check_thresholds demand_mw capacity_mw = []) := by
    intro d c
    unfold check_thresholds
    refine ⟨fun h1 => ?_, fun h1 h2 => ?_, fun h1 h2 => ?_, fun h1 => ?_⟩
    · rw [if_pos h1]
    · rw [if_neg (not_lt_of_le h2), if_pos h1]
    · rw [if_neg (by linarith), if_neg (not_lt_of_le h2), if_pos h1]
    · rw [if_neg (by linarith), if_neg (by linarith), if_neg (not_lt_of_le h1)]
  refine ⟨fun d c _ => tiers d c, ?_, ?_, ?_⟩
  · exact (tiers 8640 9000).1 (by norm_num)
  · exact (tiers 7200 9000).2.2.1 (by norm_num) (by norm_num)
  · exact (tiers 4500 9000).2.2.2 (by norm_num)

/-- C5 witness: the 96%-utilization instance through the general tier rule. -/
theorem c5_thresholds_witness :
    check_thresholds 8640 9000 = [(AlertType.peak_demand, AlertSeverity.emergency)] :=
  (c5_thresholds.1 8640 9000 (by norm_num)).1 (by norm_num)

/-- C6 counterexample: the empty-dataset fallback of
`DataDrivenPredictor._compute_patterns` sets the hour-12 multiplier to 1.0,
not to the documented Ethiopian default 1.15 of
`DemandPredictor._set_default_patterns`. -/
theorem c6_defaults_counterexample :
    (DataDrivenPredictor.compute_patterns [] none).hour_factors 12 = some 1 ∧
    DemandPredictor.set_default_patterns.hour_factors 12 = some 1.15 ∧
    (DataDrivenPredictor.compute_patterns [] none).hour_factors 12 ≠ DemandPredictor.set_default_patterns.hour_factors 12 := by
  refine ⟨rfl, rfl, ?_⟩
  have e1 : (DataDrivenPredictor.compute_patterns [] none).hour_factors 12 = some 1 := rfl
  have e2 : DemandPredictor.set_default_patterns.hour_factors 12 = some 1.15 := rfl
  rw [e1, e2]
  intro h
  have := Option.some.inj h
  norm_num at this

/-- C6 (amended): recomputing from a missing or empty dataset makes
`DemandPredictor` fall back to exactly the documented default table
(base demand 3500, the Ethiopian hourly and day-of-week multiplier tables,
temperature coefficient 15), while `DataDrivenPredictor` falls back to
base demand 3500 with every hourly and day-of-week multiplier equal to
1.0 and temperature coefficient 15. -/
theorem c6_defaults_amended :
    (∀ corr, DemandPredictor.load_data_patterns none corr = DemandPredictor.set_default_patterns) ∧
    (∀ corr, DemandPredictor.load_data_patterns (some []) corr = DemandPredictor.set_default_patterns) ∧
    DemandPredictor.set_default_patterns.base_demand = 3500 ∧
    DemandPredictor.set_default_patterns.temp_coef = 15 ∧
    DemandPredictor.set_default_patterns.hour_factors = intDict defaultHourTable ∧
    DemandPredictor.set_default_patterns.day_factors = intDict defaultDayTable ∧
    (∀ corr, (DataDrivenPredictor.compute_patterns [] corr).base_demand = 3500 ∧
      (DataDrivenPredictor.compute_patterns [] corr).temp_coefficient = 15 ∧
      (∀ h : Fin 24,
        (DataDrivenPredictor.compute_patterns [] corr).hour_factors (h.val : ℤ) = some 1) ∧
      (∀ d : Fin 7,
        (DataDrivenPredictor.compute_patterns [] corr).day_factors (d.val : ℤ) = some 1)) := by
  refine ⟨fun _ => rfl, fun _ => rfl, rfl, rfl, rfl, rfl, fun corr => ⟨rfl, rfl, ?_, ?_⟩⟩
  · intro h
    show (if 0 ≤ (h.val : ℤ) ∧ (h.val : ℤ) < 24 then some 1 else none) = some 1
    have hlt := h.isLt
    rw [if_pos (by constructor <;> omega)]
  · intro d
    show (if 0 ≤ (d.val : ℤ) ∧ (d.val : ℤ) < 7 then some 1 else none) = some 1
    have hlt := d.isLt
    rw [if_pos (by constructor <;> omega)]

/-- C7 counterexample: with default patterns,
`AdvancedDemandPredictor.predict(25, 12, 2, 6)` does not return exactly
`base * hour_mult[12] * day_mult[2] * month_mult[6]`: the product is
4354.728 while the returned demand is rounded to 4354.73. -/
theorem c7_scenario_counterexample :
    (AdvancedDemandPredictor.predict none 25 12 2 6 60 none true).predicted_demand ≠
      3680 * ((intDict advHourTable 12).getD 1) * ((intDict advDayTable 2).getD 1) *
        ((intDictFrom1 advMonthTable 6).getD 1) := by
  have e1 : (AdvancedDemandPredictor.predict none 25 12 2 6 60 none true).predicted_demand =
      round2 (max 0 (3680 * 1.15 * 1.05 * 0.98 + (25 - 25) * 15 + (60 - 60) * (-2) / 10)) := rfl
  have e2 : (3680 : ℚ) * ((intDict advHourTable 12).getD 1) * ((intDict advDayTable 2).getD 1) *
      ((intDictFrom1 advMonthTable 6).getD 1) = 3680 * 1.15 * 1.05 * 0.98 := rfl
  rw [e1, e2]
  norm_num [round2, pyRound, max_def]

/-- C7 (amended): with default patterns and the reference inputs
(temperature 25, hour 12, day 2, month 6) the temperature and humidity
adjustments are zero and `AdvancedDemandPredictor.predict` returns the
product `base * hour_mult[12] * day_mult[2] * month_mult[6]` rounded to
two decimals, 4354.73; `DemandPredictor.predict`, which has no month
table, returns exactly `base * hour_mult[12] * day_mult[2]` = 4226.25. -/
theorem c7_scenario_amended :
    (AdvancedDemandPredictor.predict none 25 12 2 6 60 none true).predicted_demand =
      round2 (3680 * ((intDict advHourTable 12).getD 1) * ((intDict advDayTable 2).getD 1) *
        ((intDictFrom1 advMonthTable 6).getD 1)) ∧
    (AdvancedDemandPredictor.predict none 25 12 2 6 60 none true).predicted_demand = 4354.73 ∧
    DemandPredictor.predict DemandPredictor.set_default_patterns none 25 12 2 6 60 false =
      3500 * ((DemandPredictor.set_default_patterns.hour_factors 12).getD 1) *
        ((DemandPredictor.set_default_patterns.day_factors 2).getD 1) ∧
    DemandPredictor.predict DemandPredictor.set_default_patterns none 25 12 2 6 60 false = 4226.25 := by
  have e1 : (AdvancedDemandPredictor.predict none 25 12 2 6 60 none true).predicted_demand =
      round2 (max 0 (3680 * 1.15 * 1.05 * 0.98 + (25 - 25) * 15 + (60 - 60) * (-2) / 10)) := rfl
  have e2 : DemandPredictor.predict DemandPredictor.set_default_patterns none 25 12 2 6 60 false =
      round2 (max 100 (3500 * 1.15 * 1.05 + (25 - 25) * 15)) := rfl
  refine ⟨?_, ?_, ?_, ?_⟩
  · rw [e1]
    have hmax : max (0 : ℚ) (3680 * 1.15 * 1.05 * 0.98 + (25 - 25) * 15 + (60 - 60) * (-2) / 10) =
        3680 * 1.15 * 1.05 * 0.98 := by norm_num [max_def]
    rw [hmax]
    rfl
  · rw [e1]
    norm_num [round2, pyRound, max_def]
  · rw [e2]
    show _ = (3500 : ℚ) * 1.15 * 1.05
    norm_num [round2, pyRound, max_def]
  · rw [e2]
    norm_num [round2, pyRound, max_def]

/-- C8: `predict_next_24h` returns exactly 24 points whose hour fields are
the contiguous wrap-around sequence `(start_hour + i) mod 24`,
`i = 0..23`, whatever the model, patterns, base temperature and start
time are. -/
theorem c8_horizon_hours :
    ∀ ml p baseTemp startHour startWeekday startMonth,
      (DemandPredictor.predict_next_24h ml p baseTemp startHour startWeekday startMonth).length = 24 ∧
      (DemandPredictor.predict_next_24h ml p baseTemp startHour startWeekday startMonth).map HPoint.hour =
        (List.range 24).map (fun i => (startHour + i) % 24) := by
  intro ml p baseTemp startHour startWeekday startMonth
  constructor
  · simp [DemandPredictor.predict_next_24h]
  · unfold DemandPredictor.predict_next_24h
    rw [List.map_map]
    rfl

theorem acknowledge_alert_not_found :
    ∀ (db : List Alert) (alert_id user now : String),
      (∀ a ∈ db, a.id ≠ alert_id) →
      acknowledge_alert db alert_id user now = Except.error 404 := by
  intro db alert_id user now h
  induction db with
  | nil => rfl
  | cons a rest ih =>
    have ha : a.id ≠ alert_id := h a (List.mem_cons_self a rest)
    show (if a.id = alert_id then Except.ok (ackUpdate a user now :: rest)
      else match acknowledge_alert rest alert_id user now with
        | Except.ok rest2 => Except.ok (a :: rest2)
        | Except.error c => Except.error c) = Except.error 404
    rw [if_neg ha, ih (fun b hb => h b (List.mem_cons_of_mem a hb))]

theorem acknowledge_alert_found :
    ∀ (db : List Alert) (alert_id user now : String) (i : ℕ) (hi : i < db.length),
      (db.get ⟨i, hi⟩).id = alert_id →
      (∀ j (hj : j < i), (db.get ⟨j, Nat.lt_trans hj hi⟩).id ≠ alert_id) →
      acknowledge_alert db alert_id user now =
        Except.ok (db.set i (ackUpdate (db.get ⟨i, hi⟩) user now)) := by
  intro db alert_id user now
  induction db with
  | nil => intro i hi; exact absurd hi (Nat.not_lt_zero i)
  | cons a rest ih =>
    intro i hi hm hfirst
    cases i with
    | zero =>
      show (if a.id = alert_id then Except.ok (ackUpdate a user now :: rest)
        else match acknowledge_alert rest alert_id user now with
          | Except.ok rest2 => Except.ok (a :: rest2)
          | Except.error c => Except.error c) = _
      have hm0 : a.id = alert_id := hm
      rw [if_pos hm0]
      rfl
    | succ n =>
      have ha : a.id ≠ alert_id := hfirst 0 (Nat.succ_pos n)
      have hrest := ih n (Nat.lt_of_succ_lt_succ hi) hm
        (fun j hj => hfirst (j + 1) (Nat.succ_lt_succ hj))
      show (if a.id = alert_id then Except.ok (ackUpdate a user now :: rest)
        else match acknowledge_alert rest alert_id user now with
          | Except.ok rest2 => Except.ok (a :: rest2)
          | Except.error c => Except.error c) = _
      rw [if_neg ha, hrest]
      rfl

/-- C9: acknowledging an alert id found in the store succeeds and replaces
only the first alert bearing that id, setting exactly its `acknowledged`,
`acknowledged_by` and `acknowledged_at` fields (all other fields and all
other alerts are untouched, since the store update is a single `List.set`
with an update that preserves every other field); when no alert bears the
id, the call fails with a 404 error and the store is returned unchanged
by the caller. -/
theorem c9_acknowledge_frame :
    ∀ (db : List Alert) (alert_id user now : String),
      ((∀ a ∈ db, a.id ≠ alert_id) →
        acknowledge_alert db alert_id user now = Except.error 404) ∧
      (∀ i (hi : i < db.length), (db.get ⟨i, hi⟩).id = alert_id →
        (∀ j (hj : j < i), (db.get ⟨j, Nat.lt_trans hj hi⟩).id ≠ alert_id) →
        acknowledge_alert db alert_id user now =
          Except.ok (db.set i (ackUpdate (db.get ⟨i, hi⟩) user now))) ∧
      (∀ a : Alert, (ackUpdate a user now).id = a.id ∧
        (ackUpdate a user now).type = a.type ∧
        (ackUpdate a user now).severity = a.severity ∧
        (ackUpdate a user now).title = a.title ∧
        (ackUpdate a user now).message = a.message ∧
        (ackUpdate a user now).recommendation = a.recommendation ∧
        (ackUpdate a user now).timestamp = a.timestamp ∧
        (ackUpdate a user now).acknowledged = true ∧
        (ackUpdate a user now).acknowledged_by = some user ∧
        (ackUpdate a user now).acknowledged_at = some now) :=
  fun db alert_id user now =>
    ⟨acknowledge_alert_not_found db alert_id user now,
     fun i hi => acknowledge_alert_found db alert_id user now i hi,
     fun _ => ⟨rfl, rfl, rfl, rfl, rfl, rfl, rfl, rfl, rfl, rfl⟩⟩

/-- C9 witness: acknowledging an id absent from a one-alert store raises
404. -/
theorem c9_acknowledge_frame_witness :
    acknowledge_alert [sampleAlert] "ALT-missing" "operator" "t1" = Except.error 404 :=
  (c9_acknowledge_frame [sampleAlert] "ALT-missing" "operator" "t1").1
    (by intro a ha; rw [List.mem_singleton] at ha; rw [ha]; decide)

/-- C10: `delete_alert` never fails: it removes every alert bearing the id,
keeps every other alert (in order, being a sublist of the original
store), reports success even when the id is absent — in which case the
store is unchanged — and deleting twice equals deleting once. -/
theorem c10_delete_total :
    ∀ (db : List Alert) (alert_id : String),
      delete_alert (delete_alert db alert_id) alert_id = delete_alert db alert_id ∧
      (∀ a ∈ delete_alert db alert_id, a.id ≠ alert_id) ∧
      (∀ a ∈ db, a.id ≠ alert_id → a ∈ delete_alert db alert_id) ∧
      (delete_alert db alert_id).Sublist db ∧
      ((∀ a ∈ db, a.id ≠ alert_id) → delete_alert db alert_id = db) := by
  intro db alert_id
  refine ⟨?_, ?_, ?_, ?_, ?_⟩
  · unfold delete_alert
    rw [List.filter_filter]
    simp
  · intro a ha
    have := List.of_mem_filter ha
    simpa using this
  · intro a ha hne
    exact List.mem_filter.mpr ⟨ha, by simpa using hne⟩
  · exact List.filter_sublist db
  · intro h
    unfold delete_alert
    rw [List.filter_eq_self]
    intro a ha
    simpa using h a ha

/-- C10 witness: deleting an absent id from a one-alert store leaves it
unchanged. -/
theorem c10_delete_total_witness :
    delete_alert [sampleAlert] "ALT-missing" = [sampleAlert] :=
  (c10_delete_total [sampleAlert] "ALT-missing").2.2.2.2
    (by intro a ha; rw [List.mem_singleton] at ha; rw [ha]; decide)

end ElecDemand
